import Mathlib

/-!
Verification development for a company-registry CSV export client
(`src/app.py`).  The Python source is shallowly embedded: pure helpers
become Lean functions, the `while True` pagination loops become
fuel-indexed recursions returning `none` exactly when the loop would
still be running after the given number of gateway calls, and the
process-wide rate-limiter state is threaded explicitly.
-/

/-- Python truthiness of an optional string field obtained via
`dict.get(key)`: the key must be present and the string non-empty. -/
def truthy : Option String → Bool
  | none => false
  | some s => s != ""

/-- Python `a or b` on two strings: `a` if non-empty, else `b`. -/
def pyOrStr (a b : String) : String :=
  if a != "" then a else b

/-- Registered-office / officer address, mirroring the fields read by
`format_address` in `src/app.py`. -/
structure Address where
  address_line_1 : Option String
  address_line_2 : Option String
  locality : Option String
  region : Option String
  postal_code : Option String
  country : Option String
deriving DecidableEq

/-- The address every field of which is absent (Python `{}`). -/
def emptyAddress : Address :=
  ⟨none, none, none, none, none, none⟩

/-- One conditional `parts.append(...)` step of `format_address`:
the field contributes its value exactly when truthy. -/
def optPart (o : Option String) : List String :=
  if truthy o then [o.getD ""] else []

/-- The six address sub-fields in the fixed order used by
`format_address`. -/
def addrFields (a : Address) : List (Option String) :=
  [a.address_line_1, a.address_line_2, a.locality, a.region,
   a.postal_code, a.country]

/-- The `parts` list built by `format_address`. -/
def addrParts (a : Address) : List String :=
  (addrFields a).flatMap optPart

/-- Python `sep.join(parts)`. -/
def pyJoin (sep : String) : List String → String
  | [] => ""
  | [x] => x
  | x :: y :: xs => x ++ sep ++ pyJoin sep (y :: xs)

/-- Python `', '.join(parts)`. -/
def joinComma (parts : List String) : String :=
  pyJoin ", " parts

/-- Python `str.strip()`: drop leading and trailing whitespace. -/
def pyStrip (s : String) : String :=
  String.mk (((s.data.dropWhile Char.isWhitespace).reverse.dropWhile Char.isWhitespace).reverse)

/-- Helper for `pySplitComma`: accumulate the current (reversed) chunk. -/
def splitCommaAux : List Char → List Char → List String
  | [], cur => [String.mk cur.reverse]
  | c :: rest, cur =>
    if c = ',' then String.mk cur.reverse :: splitCommaAux rest []
    else splitCommaAux rest (c :: cur)

/-- Python `s.split(',')` (note: the split of `""` is `[""]`). -/
def pySplitComma (s : String) : List String :=
  splitCommaAux s.data []

/-- `format_address` from `src/app.py`. -/
def format_address (a : Address) : String :=
  joinComma (addrParts a)

/-- Spec-side reading of address flattening: the comma-join of exactly
the present (non-empty) sub-fields in the fixed order. -/
def specPresentParts (a : Address) : List String :=
  (addrFields a).filterMap (fun o =>
    match o with
    | none => none
    | some s => if s = "" then none else some s)

/-- Officer record, mirroring the fields read in the CSV export loop. -/
structure Officer where
  name : Option String
  address : Option Address
  nationality : Option String
  occupation : Option String
  officer_role : Option String
  appointed_on : Option String
  resigned_on : Option String
deriving DecidableEq

/-- Company record, mirroring the fields read in the CSV export loop. -/
structure Company where
  company_name : Option String
  company_number : Option String
  company_status : Option String
  company_type : Option String
  company_subtype : Option String
  date_of_cessation : Option String
  dissolution_date : Option String
  date_of_creation : Option String
  incorporation_date : Option String
  removed_date : Option String
  registered_date : Option String
  sic_codes : Option (List String)
  registered_office_address : Option Address
deriving DecidableEq

/-- Normalized search filters, the dictionary handed to
`search_companies` (absent keys are `none`). -/
structure Filters where
  company_name : Option String
  company_status : Option String
  company_type : Option String
  sic_codes : Option String
  location : Option String
  incorporated_from : Option String
  incorporated_to : Option String
deriving DecidableEq

/-- SIC-code parsing from `search_companies`:
`[code.strip() for code in s.split(',') if code.strip()]`. -/
def parseSicCodes (s : String) : List String :=
  ((pySplitComma s).map pyStrip).filter (fun c => c != "")

/-- The JSON body built for the advanced (POST) search, with absent
criteria omitted. -/
structure SearchBody where
  company_name_includes : Option String
  company_status : Option (List String)
  company_type : Option (List String)
  sic_codes : Option (List String)
  location : Option String
  incorporated_from : Option String
  incorporated_to : Option String
deriving DecidableEq

/-- `search_body` construction in `search_companies` (lines 179-195). -/
def buildSearchBody (f : Filters) : SearchBody where
  company_name_includes := if truthy f.company_name then f.company_name else none
  company_status := if truthy f.company_status then some [f.company_status.getD ""] else none
  company_type := if truthy f.company_type then some [f.company_type.getD ""] else none
  sic_codes :=
    if truthy f.sic_codes then
      (let l := parseSicCodes (f.sic_codes.getD "")
       if l.isEmpty then none else some l)
    else none
  location := if truthy f.location then f.location else none
  incorporated_from := if truthy f.incorporated_from then f.incorporated_from else none
  incorporated_to := if truthy f.incorporated_to then f.incorporated_to else none

/-- Python truthiness of the `search_body` dict: some key present. -/
def bodyNonempty (b : SearchBody) : Bool :=
  b.company_name_includes.isSome || b.company_status.isSome || b.company_type.isSome ||
  b.sic_codes.isSome || b.location.isSome || b.incorporated_from.isSome ||
  b.incorporated_to.isSome

/-- `use_advanced_search` (line 198): the body is non-empty and some raw
advanced filter is truthy. -/
def use_advanced_search (f : Filters) : Bool :=
  bodyNonempty (buildSearchBody f) &&
    (truthy f.company_status || truthy f.company_type || truthy f.sic_codes ||
     truthy f.incorporated_from || truthy f.incorporated_to || truthy f.location)

/-- Spec-side criterion: some criterion beyond a bare name is present. -/
def advancedCriterionPresent (f : Filters) : Bool :=
  truthy f.company_status || truthy f.company_type || truthy f.sic_codes ||
  truthy f.incorporated_from || truthy f.incorporated_to || truthy f.location

/-- The three ways the `while` loop in `search_companies` can issue (or
not issue) requests. -/
inductive Mode where
  | advanced
  | nameOnly
  | noSearch
deriving DecidableEq

/-- The search mode actually taken by the loop body (lines 200-222):
POST advanced search, GET name search, or immediate break. -/
def searchMode (f : Filters) : Mode :=
  if use_advanced_search f then Mode.advanced
  else if truthy f.company_name then Mode.nameOnly
  else Mode.noSearch

/-- A filter set containing only a (truthy) name. -/
def onlyNameFilter (f : Filters) : Bool :=
  truthy f.company_name && !advancedCriterionPresent f

/-- Shape of a JSON page returned by the company-search endpoints, with
the three total-count field names that `search_companies` probes.
`items = none` models a response without an `items` key. -/
structure PageResp where
  items : Option (List Company)
  total_results : Option Nat
  total_count : Option Nat
  total_items : Option Nat
deriving DecidableEq

/-- Effective total (line 246): Python
`get('total_results', 0) or get('total_count', 0) or get('total_items', 0)`
-- the first field that is present and non-zero. -/
def effTotal (d : PageResp) : Nat :=
  if d.total_results.getD 0 ≠ 0 then d.total_results.getD 0
  else if d.total_count.getD 0 ≠ 0 then d.total_count.getD 0
  else d.total_items.getD 0

/-- HTTP-level outcome of a single network attempt, as interpreted by
`make_api_request`. -/
inductive HttpResp where
  | ok (body : PageResp)
  | tooMany (retryAfter : Option Nat)
  | methodNotAllowed
  | otherError (status : Nat)
deriving DecidableEq

/-- Observable side effects of one `make_api_request` invocation:
rate-limiter admissions, network attempts, total seconds slept on 429. -/
structure CallStats where
  admissions : Nat
  network : Nat
  slept : Nat
deriving DecidableEq

/-- Status-code handling of `make_api_request` for a non-429 response:
200 yields the JSON body; 405 on the POST path explicitly returns
`None`; any other non-2xx raises and is caught, returning `None`. -/
def respond : HttpResp → Option PageResp
  | HttpResp.ok b => some b
  | HttpResp.tooMany _ => none
  | HttpResp.methodNotAllowed => none
  | HttpResp.otherError _ => none

/-- `make_api_request` from `src/app.py`, instrumented with `CallStats`.
`req : α` stands for the fixed (endpoint, params, method, body) tuple;
`tr req n` is the transport's response to the n-th attempt.  The first
`Nat` is fuel (one unit per attempt); `none` means the unbounded
429-retry recursion is still running after that many attempts.  An
empty credential short-circuits to `None` before the rate limiter. -/
def make_api_request {α : Type} (apiKey : String) (req : α)
    (tr : α → Nat → HttpResp) : Nat → Nat → Option (Option PageResp × CallStats)
  | 0, _ => none
  | fuel + 1, attempt =>
    if apiKey = "" then some (none, ⟨0, 0, 0⟩)
    else
      match tr req attempt with
      | HttpResp.tooMany ra =>
          (make_api_request apiKey req tr fuel (attempt + 1)).map
            (fun p => (p.1, ⟨p.2.admissions + 1, p.2.network + 1, p.2.slept + ra.getD 60⟩))
      | r => some (respond r, ⟨1, 1, 0⟩)

/-- The `while True` pagination loop of `search_companies`
(lines 200-259).  `adv` is `use_advanced_search`; `srv s` is the Python
result of `make_api_request` for the page at `start_index = s`.
Returns the company list and the number of gateway calls made; `none`
means the loop is still running after `fuel` calls.  On a null response
the advanced path does `return []` (line 233), the name path breaks
with the accumulator. -/
def searchLoopFuel (adv : Bool) (srv : Nat → Option PageResp) :
    Nat → Nat → List Company → Option (List Company × Nat)
  | 0, _, _ => none
  | fuel + 1, s, acc =>
    match srv s with
    | none => if adv then some ([], 1) else some (acc, 1)
    | some d =>
      if adv && (d = ⟨none, none, none, none⟩) then some ([], 1)
      else match d.items with
      | none => some (acc, 1)
      | some page =>
        let acc2 := acc ++ page
        if 0 < effTotal d then
          if effTotal d ≤ s + page.length then some (acc2, 1)
          else (searchLoopFuel adv srv fuel (s + 100) acc2).map (fun p => (p.1, p.2 + 1))
        else if page.length < 100 then some (acc2, 1)
        else (searchLoopFuel adv srv fuel (s + 100) acc2).map (fun p => (p.1, p.2 + 1))

/-- `search_companies` from `src/app.py`: pick the mode once (it does
not change between iterations) and run the pagination loop; with no
valid filters the loop breaks immediately with no calls. -/
def search_companies (f : Filters) (srv : Nat → Option PageResp) (fuel : Nat) :
    Option (List Company × Nat) :=
  match searchMode f with
  | Mode.advanced => searchLoopFuel true srv fuel 0 []
  | Mode.nameOnly => searchLoopFuel false srv fuel 0 []
  | Mode.noSearch => some ([], 0)

/-- Shape of a JSON page returned by the officers endpoint. -/
structure OffResp where
  items : Option (List Officer)
  total_count : Option Nat
deriving DecidableEq

/-- `get_company_officers` from `src/app.py` (lines 133-160),
fuel-indexed; `osrv s` is the gateway result for `start_index = s`.
Returns the officers and the number of gateway calls made.  The
continuation test compares `start_index + 100` against
`total_count` (default 0) only. -/
def get_company_officers (osrv : Nat → Option OffResp) :
    Nat → Nat → List Officer → Option (List Officer × Nat)
  | 0, _, _ => none
  | fuel + 1, s, acc =>
    match osrv s with
    | none => some (acc, 1)
    | some d =>
      match d.items with
      | none => some (acc, 1)
      | some its =>
        let acc2 := acc ++ its
        if d.total_count.getD 0 ≤ s + 100 then some (acc2, 1)
        else (get_company_officers osrv fuel (s + 100) acc2).map (fun p => (p.1, p.2 + 1))

/-- Rate-limit cap: 600 requests. -/
def RATE_LIMIT_REQUESTS : Nat := 600

/-- Rate-limit window: 300 seconds. -/
def RATE_LIMIT_WINDOW : ℚ := 300

/-- Drop recorded timestamps that fell out of the trailing window
(lines 40 and 47). -/
def pruneTimes (now : ℚ) (ts : List ℚ) : List ℚ :=
  ts.filter (fun t => decide (now - t < RATE_LIMIT_WINDOW))

/-- The blocking wait of line 44:
`RATE_LIMIT_WINDOW - (now - request_times[0]) + 1`. -/
def rlWait (now : ℚ) (pruned : List ℚ) : ℚ :=
  RATE_LIMIT_WINDOW - (now - pruned.headD 0) + 1

/-- `check_rate_limit` from `src/app.py`, with wall-clock time made
explicit: given the current time and the recorded timestamps, return
the seconds slept and the new timestamp list.  While sleeping, the
clock advances by exactly the sleep duration, so the re-prune and the
final append use `now + wait`. -/
def check_rate_limit (now : ℚ) (ts : List ℚ) : ℚ × List ℚ :=
  if RATE_LIMIT_REQUESTS ≤ (pruneTimes now ts).length then
    (rlWait now (pruneTimes now ts),
     pruneTimes (now + rlWait now (pruneTimes now ts)) (pruneTimes now ts) ++
       [now + rlWait now (pruneTimes now ts)])
  else
    (0, pruneTimes now ts ++ [now])

/-- One admitted call in a single-threaded run: the call arriving at
time `a` executes at `max clock a` (it cannot start before the previous
call, including its sleep, returned). -/
def rlStep (p : List ℚ × ℚ) (a : ℚ) : List ℚ × ℚ :=
  let now := max p.2 a
  let r := check_rate_limit now p.1
  (r.2, now + r.1)

/-- A whole run of `check_rate_limit` calls at the given arrival times,
from the initial empty `request_times` at clock 0. -/
def runCalls (arrivals : List ℚ) : List ℚ × ℚ :=
  arrivals.foldl rlStep ([], 0)

/-- Normalization performed by the `/search` route (lines 275-286):
strip each form value and drop the empty ones. -/
def normStr (s : String) : Option String :=
  if pyStrip s = "" then none else some (pyStrip s)

/-- Raw form input of the `/search` route: the seven text fields. -/
structure RawForm where
  company_name : String
  company_status : String
  company_type : String
  sic_codes : String
  location : String
  incorporated_from : String
  incorporated_to : String
deriving DecidableEq

/-- The normalized `filters` dict built by the route. -/
def normalizeForm (r : RawForm) : Filters where
  company_name := normStr r.company_name
  company_status := normStr r.company_status
  company_type := normStr r.company_type
  sic_codes := normStr r.sic_codes
  location := normStr r.location
  incorporated_from := normStr r.incorporated_from
  incorporated_to := normStr r.incorporated_to

/-- Python `if not filters`: every key was dropped. -/
def isEmptyFilters (f : Filters) : Bool :=
  f.company_name.isNone && f.company_status.isNone && f.company_type.isNone &&
  f.sic_codes.isNone && f.location.isNone && f.incorporated_from.isNone &&
  f.incorporated_to.isNone

/-- The eleven company-attribute CSV columns for one company
(lines 333-350). -/
def companyCols (c : Company) : List String :=
  [c.company_name.getD "",
   c.company_number.getD "",
   c.company_status.getD "",
   c.company_type.getD "",
   c.company_subtype.getD "",
   pyOrStr (c.date_of_cessation.getD "") (c.dissolution_date.getD ""),
   pyOrStr (c.date_of_creation.getD "") (c.incorporation_date.getD ""),
   c.removed_date.getD "",
   c.registered_date.getD "",
   pyJoin " " ((c.sic_codes.getD []).filter (fun s => s != "")),
   format_address (c.registered_office_address.getD emptyAddress)]

/-- The seven officer CSV columns for one officer (lines 380-386). -/
def officerCols (o : Officer) : List String :=
  [o.name.getD "",
   format_address (o.address.getD emptyAddress),
   o.nationality.getD "",
   o.occupation.getD "",
   o.officer_role.getD "",
   o.appointed_on.getD "",
   o.resigned_on.getD ""]

/-- CSV rows emitted for one company (lines 355-407): one blank-officer
row when the officer list is empty, otherwise one row per officer. -/
def processCompany (c : Company) (officers : List Officer) : List (List String) :=
  if officers.isEmpty then
    [companyCols c ++ ["", "", "", "", "", "", ""]]
  else
    officers.map (fun o => companyCols c ++ officerCols o)

/-- All data rows of the export, in company order; `ofetch n` is the
officer list obtained for company number `n`. -/
def buildRows (companies : List Company) (ofetch : String → List Officer) :
    List (List String) :=
  companies.flatMap (fun c => processCompany c (ofetch (c.company_number.getD "")))

/-- The fixed 18-column CSV header (lines 309-328). -/
def csvHeader : List String :=
  ["company_name", "company_number", "company_status", "company_type",
   "company_subtype", "dissolution_date", "incorporation_date", "removed_date",
   "registered_date", "nature_of_business", "registered_office_address",
   "director_name", "director_address", "director_nationality",
   "director_occupation", "director_role", "director_appointed_date",
   "director_resigned_date"]

/-- Terminal outcome of the `/search` route.  `serverError` is the
top-level `except` handler (500); the pure pipeline never produces it. -/
inductive SearchResult where
  | badRequest (msg : String)
  | notFound (msg : String)
  | csv (rows : List (List String))
  | serverError (msg : String)
deriving DecidableEq

/-- The 400 message (line 289). -/
def noFiltersMsg : String :=
  "Please provide at least one search filter"

/-- The plain 404 message (line 297). -/
def plainNoCompaniesMsg : String :=
  "No companies found matching your criteria."

/-- The note appended at lines 300-301 when zero companies were found
and some non-location advanced filter was supplied. -/
def advUnsupportedNote : String :=
  "\n\n⚠️ IMPORTANT: The Companies House public API does not support advanced search.\nThe /advanced-search/companies endpoint returns \x22405 Method Not Allowed\x22."

/-- The route's check at line 299: note that `location` is not in the
probed key list. -/
def hasNonLocationAdvanced (f : Filters) : Bool :=
  truthy f.sic_codes || truthy f.incorporated_from || truthy f.incorporated_to ||
  truthy f.company_status || truthy f.company_type

/-- The 404 message actually produced (lines 296-302). -/
def noCompaniesMsg (f : Filters) : String :=
  if hasNonLocationAdvanced f then plainNoCompaniesMsg ++ advUnsupportedNote
  else plainNoCompaniesMsg

/-- The `/search` route (lines 270-430): normalize the form, reject an
empty filter set with 400 and zero API calls, search, return 404 when
no companies were found, else the CSV.  The returned `Nat` counts the
company-search gateway calls; `none` propagates loop fuel exhaustion. -/
def searchRoute (raw : RawForm) (srv : Nat → Option PageResp)
    (ofetch : String → List Officer) (fuel : Nat) : Option (SearchResult × Nat) :=
  let f := normalizeForm raw
  if isEmptyFilters f then some (SearchResult.badRequest noFiltersMsg, 0)
  else
    match search_companies f srv fuel with
    | none => none
    | some (companies, calls) =>
      if companies.isEmpty then some (SearchResult.notFound (noCompaniesMsg f), calls)
      else some (SearchResult.csv (csvHeader :: buildRows companies ofetch), calls)

/-- A synthetic server consistently reporting a grand total `T`: every
page carries `T` (under some total field name) and
`min 100 (T - start_index)` items. -/
def ConsistentTotal (srv : Nat → Option PageResp) (T : Nat) : Prop :=
  ∀ s, ∃ d its, srv s = some d ∧ d.items = some its ∧
    its.length = min 100 (T - s) ∧ effTotal d = T

/-- A synthetic server that never reports a usable total. -/
def NoTotal (srv : Nat → Option PageResp) : Prop :=
  ∀ s d, srv s = some d → effTotal d = 0

/-- The page at `start_index = s` (if it has items) is short. -/
def ShortAt (srv : Nat → Option PageResp) (s : Nat) : Prop :=
  ∀ d its, srv s = some d → d.items = some its → its.length < 100

/-- A company with every field absent. -/
def defaultCompany : Company :=
  ⟨none, none, none, none, none, none, none, none, none, none, none, none, none⟩

/-- An officer with every field absent. -/
def defaultOfficer : Officer :=
  ⟨none, none, none, none, none, none, none⟩

/-- Synthetic server: 250 results reported under `total_count`. -/
def srvTotal250 : Nat → Option PageResp := fun s =>
  some ⟨some (List.replicate (min 100 (250 - s)) defaultCompany), none, some 250, none⟩

/-- Synthetic server with no totals: one full page, then a short one. -/
def srvShortAt1 : Nat → Option PageResp := fun s =>
  if s = 0 then some ⟨some (List.replicate 100 defaultCompany), none, none, none⟩
  else some ⟨some [], none, none, none⟩

/-- A 200 response whose items list is empty (zero matches). -/
def emptyPage : PageResp :=
  ⟨some [], none, none, none⟩

/-- Officers page: a full page of 100 items and no `total_count`. -/
def offPageFull : OffResp :=
  ⟨some (List.replicate 100 defaultOfficer), none⟩

/-- Officer server returning `offPageFull` on the first page only. -/
def osrvFull : Nat → Option OffResp := fun s =>
  if s = 0 then some offPageFull else none

/-- Form input whose only criterion is a location. -/
def rawLocOnly : RawForm :=
  ⟨"", "", "", "", "London", "", ""⟩

/-- Form input whose only criterion is a company name. -/
def rawAcme : RawForm :=
  ⟨"Acme", "", "", "", "", "", ""⟩

/-- Form input whose only criterion is a company status. -/
def rawStatus : RawForm :=
  ⟨"", "active", "", "", "", "", ""⟩

/-- Form input that is empty after normalization (whitespace only). -/
def rawEmpty : RawForm :=
  ⟨"", " ", "", "", "", "", ""⟩

/-- Filter set whose only criterion is a SIC string that parses to an
empty code list. -/
def degenerateSicFilters : Filters :=
  ⟨none, none, none, some ", ,", none, none, none⟩

/-- Filter set containing only a name. -/
def onlyNameFilters : Filters :=
  ⟨some "Acme", none, none, none, none, none, none⟩

/-- A concrete company for witnesses. -/
def acmeCompany : Company :=
  ⟨some "ACME LTD", some "01234567", some "active", some "ltd", none,
   none, none, some "2001-02-03", none, none, none, some ["62020"], none⟩

lemma flatMap_optPart_eq_filterMap (os : List (Option String)) :
    os.flatMap optPart = os.filterMap (fun o =>
      match o with
      | none => none
      | some s => if s = "" then none else some s) := by
  induction os with
  | nil => rfl
  | cons o os ih =>
    cases o with
    | none => simpa [optPart, truthy] using ih
    | some s =>
      by_cases hs : s = "" <;>
        simp [optPart, truthy, hs, List.filterMap_cons, ih]

/-- C7: address flattening emits exactly the present (non-empty)
sub-fields, comma-joined in the fixed order line1, line2, locality,
region, postal code, country; an address with only locality and country
produces `locality ++ ", " ++ country`; the empty address produces the
empty string. -/
theorem claim_C7 :
    (∀ a : Address, format_address a = joinComma (specPresentParts a)) ∧
    (∀ loc cty : String, loc ≠ "" → cty ≠ "" →
      format_address ⟨none, none, some loc, none, none, some cty⟩ = loc ++ ", " ++ cty) ∧
    format_address emptyAddress = "" := by
  refine ⟨?_, ?_, rfl⟩
  · intro a
    rw [format_address, addrParts, specPresentParts, flatMap_optPart_eq_filterMap]
  · intro loc cty hl hc
    rw [format_address, addrParts, addrFields]
    simp [optPart, truthy, hl, hc]
    rfl

/-- Witness for C7 at a concrete address. -/
theorem claim_C7_witness :
    format_address ⟨none, none, some "London", none, none, some "UK"⟩ =
      "London" ++ ", " ++ "UK" :=
  claim_C7.2.1 "London" "UK" (by decide) (by decide)

/-- C2 counterexample: the filter set whose only criterion is the SIC
string ", ," (an advanced criterion, degenerate: it parses to an empty
code list) does NOT select advanced mode -- `search_body` stays empty,
so `use_advanced_search` is false and, with no name either, the loop
breaks without issuing any search. -/
theorem claim_C2_cex :
    advancedCriterionPresent degenerateSicFilters = true ∧
    searchMode degenerateSicFilters ≠ Mode.advanced ∧
    searchMode degenerateSicFilters = Mode.noSearch := by
  refine ⟨by decide, by decide, by decide⟩

/-- C2 amended: advanced mode is selected iff some criterion beyond a
bare name is truthy AND the built search body is non-empty (which fails
exactly when the only criteria supplied are degenerate, e.g. a SIC
string parsing to an empty list, with no name); every filter set
containing only a name selects name-only mode. -/
theorem claim_C2_amended (f : Filters) :
    (searchMode f = Mode.advanced ↔
      (advancedCriterionPresent f = true ∧ bodyNonempty (buildSearchBody f) = true)) ∧
    (onlyNameFilter f = true → searchMode f = Mode.nameOnly) := by
  have h1 : use_advanced_search f =
      (bodyNonempty (buildSearchBody f) && advancedCriterionPresent f) := rfl
  constructor
  · rw [searchMode, h1]
    rcases hb : bodyNonempty (buildSearchBody f) <;>
      rcases ha : advancedCriterionPresent f <;>
        simp [hb, ha] <;> split <;> simp
  · intro h
    simp only [onlyNameFilter, Bool.and_eq_true, Bool.not_eq_true'] at h
    rw [searchMode, h1, h.2, Bool.and_false]
    simp [h.1]

/-- Witness for C2 (amended) at the name-only filter set. -/
theorem claim_C2_witness :
    searchMode onlyNameFilters = Mode.nameOnly :=
  (claim_C2_amended onlyNameFilters).2 (by decide)

lemma check_rate_limit_length (now : ℚ) (ts : List ℚ)
    (h : ts.length ≤ RATE_LIMIT_REQUESTS) :
    ((check_rate_limit now ts).2).length ≤ RATE_LIMIT_REQUESTS := by
  have hp : (pruneTimes now ts).length ≤ ts.length := List.length_filter_le _ _
  rw [check_rate_limit]
  split
  · rename_i hcap
    rcases hpp : pruneTimes now ts with _ | ⟨h0, rest⟩
    · rw [hpp] at hcap
      simp [RATE_LIMIT_REQUESTS] at hcap
    · have hw : rlWait now (h0 :: rest) = RATE_LIMIT_WINDOW - (now - h0) + 1 := rfl
      have hfalse : decide (now + rlWait now (h0 :: rest) - h0 < RATE_LIMIT_WINDOW)
          = false := by
        rw [decide_eq_false_iff_not, hw]
        intro hlt
        have heq : now + (RATE_LIMIT_WINDOW - (now - h0) + 1) - h0 =
            RATE_LIMIT_WINDOW + 1 := by ring
        rw [heq] at hlt
        linarith
      rw [pruneTimes, List.filter_cons_of_neg (by simp [hfalse])]
      have hle : (List.filter
          (fun t => decide (now + rlWait now (h0 :: rest) - t < RATE_LIMIT_WINDOW))
            rest).length ≤ rest.length :=
        List.length_filter_le _ _
      rw [hpp] at hp
      simp only [List.length_append, List.length_cons, List.length_nil]
      simp only [List.length_cons] at hp
      omega
  · rename_i hcap
    simp only [List.length_append, List.length_singleton]
    omega

lemma rlStep_length (p : List ℚ × ℚ) (a : ℚ)
    (h : p.1.length ≤ RATE_LIMIT_REQUESTS) :
    ((rlStep p a).1).length ≤ RATE_LIMIT_REQUESTS :=
  check_rate_limit_length _ _ h

lemma foldl_rlStep_length (arrivals : List ℚ) :
    ∀ p : List ℚ × ℚ, p.1.length ≤ RATE_LIMIT_REQUESTS →
      ((arrivals.foldl rlStep p).1).length ≤ RATE_LIMIT_REQUESTS := by
  induction arrivals with
  | nil => intro p h; simpa using h
  | cons a rest ih =>
    intro p h
    rw [List.foldl_cons]
    exact ih _ (rlStep_length p a h)

/-- C4: (1) in any single-threaded run starting from the empty record,
the recorded in-window timestamp list never exceeds the cap of 600 at
the moment a call is recorded; (2) a call finding fewer than 600
in-window timestamps never blocks, and just records itself after
pruning; (3) a call finding at least 600 in-window timestamps sleeps
exactly `window - (now - oldest) + 1` seconds (a positive wait); (4)
every timestamp retained when the call is recorded lies within the
window; (5) the current timestamp is recorded last. -/
theorem claim_C4 :
    (∀ arrivals : List ℚ, ((runCalls arrivals).1).length ≤ RATE_LIMIT_REQUESTS) ∧
    (∀ now ts, (pruneTimes now ts).length < RATE_LIMIT_REQUESTS →
      (check_rate_limit now ts).1 = 0 ∧
      (check_rate_limit now ts).2 = pruneTimes now ts ++ [now]) ∧
    (∀ now ts, RATE_LIMIT_REQUESTS ≤ (pruneTimes now ts).length →
      (check_rate_limit now ts).1 = rlWait now (pruneTimes now ts) ∧
      1 < (check_rate_limit now ts).1) ∧
    (∀ now ts t, t ∈ (check_rate_limit now ts).2 →
      now + (check_rate_limit now ts).1 - t < RATE_LIMIT_WINDOW) ∧
    (∀ now ts, ((check_rate_limit now ts).2).getLast? =
      some (now + (check_rate_limit now ts).1)) := by
  refine ⟨?_, ?_, ?_, ?_, ?_⟩
  · intro arrivals
    exact foldl_rlStep_length arrivals ([], 0) (by simp)
  · intro now ts h
    rw [check_rate_limit, if_neg (by omega)]
    exact ⟨rfl, rfl⟩
  · intro now ts h
    rw [check_rate_limit, if_pos h]
    refine ⟨rfl, ?_⟩
    rcases hpp : pruneTimes now ts with _ | ⟨h0, rest⟩
    · rw [hpp] at h
      simp [RATE_LIMIT_REQUESTS] at h
    · have hmem : h0 ∈ pruneTimes now ts := by
        rw [hpp]
        exact List.mem_cons_self _ _
      rw [pruneTimes] at hmem
      have hlt : now - h0 < RATE_LIMIT_WINDOW :=
        of_decide_eq_true (List.mem_filter.mp hmem).2
      show 1 < rlWait now (h0 :: rest)
      rw [rlWait, List.headD_cons]
      linarith
  · intro now ts t ht
    rw [check_rate_limit] at ht ⊢
    split at ht
    · rw [if_pos (by assumption)]
      rcases List.mem_append.mp ht with hin | hlast
      · exact of_decide_eq_true (List.mem_filter.mp hin).2
      · rw [List.mem_singleton.mp hlast]
        simp [RATE_LIMIT_WINDOW]
    · rw [if_neg (by assumption)]
      rcases List.mem_append.mp ht with hin | hlast
      · have := of_decide_eq_true (List.mem_filter.mp hin).2
        have heq : now + 0 - t = now - t := by ring
        rw [heq]
        exact this
      · rw [List.mem_singleton.mp hlast]
        simp [RATE_LIMIT_WINDOW]
  · intro now ts
    rw [check_rate_limit]
    split
    · rw [List.getLast?_append]
      rfl
    · rw [List.getLast?_append]
      simp

/-- Witness for C4 at concrete rate-limiter states: an empty record
never blocks; a record of 600 in-window timestamps blocks with the
prescribed wait. -/
theorem claim_C4_witness :
    (check_rate_limit 0 []).1 = 0 ∧
    (check_rate_limit 0 (List.replicate 600 0)).1 =
      rlWait 0 (pruneTimes 0 (List.replicate 600 0)) ∧
    (0 : ℚ) + (check_rate_limit 0 []).1 - 0 < RATE_LIMIT_WINDOW := by
  have hall : pruneTimes 0 (List.replicate 600 (0 : ℚ)) = List.replicate 600 0 := by
    apply List.filter_eq_self.mpr
    intro a ha
    rw [List.eq_of_mem_replicate ha]
    simp only [decide_eq_true_eq, RATE_LIMIT_WINDOW]
    norm_num
  refine ⟨(claim_C4.2.1 0 [] (by decide)).1, ?_, ?_⟩
  · exact (claim_C4.2.2.1 0 (List.replicate 600 0)
      (by rw [hall, List.length_replicate]; exact Nat.le.refl)).1
  · exact claim_C4.2.2.2.1 0 [] 0 (by
      rw [(claim_C4.2.1 0 [] (by decide)).2]
      simp [pruneTimes])

lemma make_api_request_characterize {α : Type} (apiKey : String) (req : α)
    (tr : α → Nat → HttpResp) :
    ∀ fuel a r st, apiKey ≠ "" → make_api_request apiKey req tr fuel a = some (r, st) →
      ∃ k, a ≤ k ∧ k < a + fuel ∧
        (∀ j, a ≤ j → j < k → ∃ ra, tr req j = HttpResp.tooMany ra) ∧
        (∀ ra, tr req k ≠ HttpResp.tooMany ra) ∧ r = respond (tr req k) := by
  intro fuel
  induction fuel with
  | zero =>
    intro a r st hk h
    simp [make_api_request] at h
  | succ n ih =>
    intro a r st hk h
    rw [make_api_request, if_neg hk] at h
    cases htr : tr req a with
    | tooMany ra =>
      rw [htr] at h
      rcases hrec : make_api_request apiKey req tr n (a + 1) with _ | p
      · rw [hrec] at h
        simp at h
      · rw [hrec] at h
        have hfst : p.1 = r := congrArg Prod.fst (Option.some.inj h)
        obtain ⟨k, hk1, hk2, hall, hnot, hresp⟩ :=
          ih (a + 1) p.1 p.2 hk (by rw [hrec])
        refine ⟨k, by omega, by omega, ?_, hnot, ?_⟩
        · intro j hj1 hj2
          rcases Nat.eq_or_lt_of_le hj1 with hj | hj
          · exact ⟨ra, hj ▸ htr⟩
          · exact hall j hj hj2
        · rw [← hfst]
          exact hresp
    | ok b =>
      rw [htr] at h
      simp only [Option.some.injEq, Prod.mk.injEq] at h
      refine ⟨a, Nat.le_refl a, by omega, ?_, ?_, ?_⟩
      · intro j hj1 hj2
        exact absurd hj2 (Nat.not_lt.mpr hj1)
      · rw [htr]
        intro ra hra
        cases hra
      · rw [htr]
        exact h.1.symm
    | methodNotAllowed =>
      rw [htr] at h
      simp only [Option.some.injEq, Prod.mk.injEq] at h
      refine ⟨a, Nat.le_refl a, by omega, ?_, ?_, ?_⟩
      · intro j hj1 hj2
        exact absurd hj2 (Nat.not_lt.mpr hj1)
      · rw [htr]
        intro ra hra
        cases hra
      · rw [htr]
        exact h.1.symm
    | otherError code =>
      rw [htr] at h
      simp only [Option.some.injEq, Prod.mk.injEq] at h
      refine ⟨a, Nat.le_refl a, by omega, ?_, ?_, ?_⟩
      · intro j hj1 hj2
        exact absurd hj2 (Nat.not_lt.mpr hj1)
      · rw [htr]
        intro ra hra
        cases hra
      · rw [htr]
        exact h.1.symm

/-- C6: on a 429 response the gateway sleeps for the Retry-After value
(default 60), then retries the very same request (same `req`, next
attempt) with the sleep added to the accumulated total; a transport
that always answers 429 makes the recursion run forever (no fuel
suffices); and whenever a result is returned, it is the interpretation
of the first non-429 response -- a 429 is never surfaced as the
outcome. -/
theorem claim_C6 :
    (∀ (α : Type) (apiKey : String) (req : α) tr fuel a ra, apiKey ≠ "" →
      tr req a = HttpResp.tooMany ra →
      make_api_request apiKey req tr (fuel + 1) a =
        (make_api_request apiKey req tr fuel (a + 1)).map
          (fun p => (p.1, ⟨p.2.admissions + 1, p.2.network + 1,
            p.2.slept + ra.getD 60⟩))) ∧
    (∀ (apiKey : String) (ra : Option Nat), apiKey ≠ "" → ∀ fuel a,
      make_api_request apiKey () (fun _ _ => HttpResp.tooMany ra) fuel a = none) ∧
    (∀ (α : Type) (apiKey : String) (req : α) tr fuel a r st, apiKey ≠ "" →
      make_api_request apiKey req tr fuel a = some (r, st) →
      ∃ k, a ≤ k ∧ k < a + fuel ∧
        (∀ j, a ≤ j → j < k → ∃ ra, tr req j = HttpResp.tooMany ra) ∧
        (∀ ra, tr req k ≠ HttpResp.tooMany ra) ∧ r = respond (tr req k)) := by
  refine ⟨?_, ?_, ?_⟩
  · intro α apiKey req tr fuel a ra hk htr
    rw [make_api_request, if_neg hk, htr]
  · intro apiKey ra hk fuel
    induction fuel with
    | zero => intro a; rfl
    | succ n ih =>
      intro a
      rw [make_api_request, if_neg hk]
      rw [ih (a + 1)]
      rfl
  · intro α apiKey req tr fuel a r st hk h
    exact make_api_request_characterize apiKey req tr fuel a r st hk h

/-- Witness for C6: with a key configured and a transport that always
answers 429, no amount of fuel produces a result. -/
theorem claim_C6_witness :
    make_api_request "key" () (fun _ _ => HttpResp.tooMany none) 5 0 = none :=
  claim_C6.2.1 "key" none (by decide) 5 0

/-- C10: the officer fetcher's continuation test compares
`start_index + 100` against `total_count` only (never the number of
items received), so whenever the first page has an items list and its
`total_count` is absent or at most 100, exactly one request is issued
and exactly that page's items are returned -- including a full page of
100 items with no `total_count`. -/
theorem claim_C10 (osrv : Nat → Option OffResp) (fuel : Nat) (d : OffResp)
    (its : List Officer) (h1 : osrv 0 = some d) (h2 : d.items = some its)
    (h3 : d.total_count.getD 0 ≤ 100) :
    get_company_officers osrv (fuel + 1) 0 [] = some (its, 1) := by
  simp [get_company_officers, h1, h2, h3]

/-- Witness for C10: a first page holding a full 100 officers and no
`total_count` ends pagination after a single request. -/
theorem claim_C10_witness :
    get_company_officers osrvFull (0 + 1) 0 [] =
      some (List.replicate 100 defaultOfficer, 1) :=
  claim_C10 osrvFull 0 offPageFull (List.replicate 100 defaultOfficer)
    rfl rfl (by decide)

/-- C8: with an empty credential the gateway short-circuits to `None`
after one step -- zero rate-limiter admissions, zero network attempts,
zero sleep -- for any transport; consequently a whole run whose gateway
calls all yield `None` surfaces as the 404 "no companies found"
response, not as a distinct configuration error. -/
theorem claim_C8 :
    (∀ (α : Type) (req : α) (tr : α → Nat → HttpResp) (fuel a : Nat),
      make_api_request "" req tr (fuel + 1) a = some (none, ⟨0, 0, 0⟩)) ∧
    (∀ raw ofetch fuel, isEmptyFilters (normalizeForm raw) = false →
      (searchRoute raw (fun _ => none) ofetch (fuel + 1)).map Prod.fst =
        some (SearchResult.notFound (noCompaniesMsg (normalizeForm raw)))) := by
  constructor
  · intro α req tr fuel a
    rw [make_api_request, if_pos rfl]
  · intro raw ofetch fuel h
    have hsc : search_companies (normalizeForm raw) (fun _ => none) (fuel + 1) = some ([], 1) ∨
        search_companies (normalizeForm raw) (fun _ => none) (fuel + 1) = some ([], 0) := by
      cases hm : searchMode (normalizeForm raw) with
      | advanced =>
        left
        simp [search_companies, hm, searchLoopFuel]
      | nameOnly =>
        left
        simp [search_companies, hm, searchLoopFuel]
      | noSearch =>
        right
        simp [search_companies, hm]
    rcases hsc with hsc | hsc <;> simp [searchRoute, h, hsc]

/-- Witness for C8 at a concrete name-only form with a dead gateway. -/
theorem claim_C8_witness :
    (searchRoute rawAcme (fun _ => none) (fun _ => []) (0 + 1)).map Prod.fst =
      some (SearchResult.notFound (noCompaniesMsg (normalizeForm rawAcme))) :=
  claim_C8.2 rawAcme (fun _ => []) 0 (by decide)

/-- C9: a filter set that is empty after normalization yields the 400
"no filters" error with zero gateway calls, independent of the company
and officer servers; a non-empty filter set whose search finds zero
companies yields the 404 message; and every terminal outcome of the
pure pipeline is 400, 404 or a CSV (500 is only the top-level
exception handler, which the pure pipeline never reaches). -/
theorem claim_C9 :
    (∀ raw srv srv2 ofetch ofetch2 fuel,
      isEmptyFilters (normalizeForm raw) = true →
      searchRoute raw srv ofetch fuel = some (SearchResult.badRequest noFiltersMsg, 0) ∧
      searchRoute raw srv ofetch fuel = searchRoute raw srv2 ofetch2 fuel) ∧
    (∀ raw srv ofetch fuel calls,
      isEmptyFilters (normalizeForm raw) = false →
      search_companies (normalizeForm raw) srv fuel = some ([], calls) →
      (searchRoute raw srv ofetch fuel).map Prod.fst =
        some (SearchResult.notFound (noCompaniesMsg (normalizeForm raw)))) ∧
    (∀ raw srv ofetch fuel res calls,
      searchRoute raw srv ofetch fuel = some (res, calls) →
      (∃ m, res = SearchResult.badRequest m) ∨ (∃ m, res = SearchResult.notFound m) ∨
      (∃ rows, res = SearchResult.csv rows)) := by
  refine ⟨?_, ?_, ?_⟩
  · intro raw srv srv2 ofetch ofetch2 fuel h
    constructor <;> simp [searchRoute, h]
  · intro raw srv ofetch fuel calls h hsc
    simp [searchRoute, h, hsc]
  · intro raw srv ofetch fuel res calls h
    simp only [searchRoute] at h
    split at h
    · left
      exact ⟨noFiltersMsg, (congrArg Prod.fst (Option.some.inj h)).symm⟩
    · rcases hsc : search_companies (normalizeForm raw) srv fuel with _ | ⟨companies, calls2⟩
      · simp only [hsc] at h
        cases h
      · simp only [hsc] at h
        split at h
        · right
          left
          exact ⟨noCompaniesMsg (normalizeForm raw),
            (congrArg Prod.fst (Option.some.inj h)).symm⟩
        · right
          right
          exact ⟨csvHeader :: buildRows companies ofetch,
            (congrArg Prod.fst (Option.some.inj h)).symm⟩

/-- Witness for C9 at a whitespace-only form: 400 and zero calls. -/
theorem claim_C9_witness :
    searchRoute rawEmpty (fun _ => none) (fun _ => []) 7 =
      some (SearchResult.badRequest noFiltersMsg, 0) :=
  (claim_C9.1 rawEmpty (fun _ => none) (fun _ => none) (fun _ => [])
    (fun _ => []) 7 (by decide)).1

lemma searchLoopFuel_none (adv : Bool) (srv : Nat → Option PageResp) (fuel s : Nat)
    (acc : List Company) (hd : srv s = none) :
    searchLoopFuel adv srv (fuel + 1) s acc =
      if adv then some ([], 1) else some (acc, 1) := by
  simp only [searchLoopFuel, hd]

lemma searchLoopFuel_noItems (adv : Bool) (srv : Nat → Option PageResp) (fuel s : Nat)
    (acc : List Company) (d : PageResp) (hd : srv s = some d)
    (hne : (adv && decide (d = (⟨none, none, none, none⟩ : PageResp))) = false)
    (hits : d.items = none) :
    searchLoopFuel adv srv (fuel + 1) s acc = some (acc, 1) := by
  simp only [searchLoopFuel, hd, hits]
  simp [hne]

lemma searchLoopFuel_page (adv : Bool) (srv : Nat → Option PageResp) (fuel s : Nat)
    (acc : List Company) (d : PageResp) (page : List Company) (hd : srv s = some d)
    (hne : (adv && decide (d = (⟨none, none, none, none⟩ : PageResp))) = false)
    (hits : d.items = some page) :
    searchLoopFuel adv srv (fuel + 1) s acc =
      if 0 < effTotal d then
        if effTotal d ≤ s + page.length then some (acc ++ page, 1)
        else (searchLoopFuel adv srv fuel (s + 100) (acc ++ page)).map
          (fun p => (p.1, p.2 + 1))
      else if page.length < 100 then some (acc ++ page, 1)
      else (searchLoopFuel adv srv fuel (s + 100) (acc ++ page)).map
        (fun p => (p.1, p.2 + 1)) := by
  simp only [searchLoopFuel, hd, hits]
  simp [hne]

lemma isSome_map_self {α β : Type} (f : α → β) (o : Option α) :
    (o.map f).isSome = o.isSome := by
  cases o <;> rfl

lemma searchLoop_total_isSome (adv : Bool) (srv : Nat → Option PageResp) (T : Nat)
    (hc : ConsistentTotal srv T) :
    ∀ fuel s acc, T ≤ s + 100 * fuel →
      (searchLoopFuel adv srv (fuel + 1) s acc).isSome = true := by
  intro fuel
  induction fuel with
  | zero =>
    intro s acc hb
    obtain ⟨d, its, hd, hits, hlen, htot⟩ := hc s
    have hdeq : (adv && decide (d = (⟨none, none, none, none⟩ : PageResp))) = false := by
      have : decide (d = (⟨none, none, none, none⟩ : PageResp)) = false := by
        rw [decide_eq_false_iff_not]
        intro he
        rw [he] at hits
        cases hits
      rw [this, Bool.and_false]
    rw [searchLoopFuel_page adv srv 0 s acc d its hd hdeq hits, htot]
    rcases Nat.eq_zero_or_pos T with hT | hT
    · have hlen0 : its.length = 0 := by
        rw [hlen, hT, Nat.zero_sub, Nat.min_zero]
      rw [hT]
      simp [hlen0]
    · have hstop : T ≤ s + its.length := by omega
      rw [if_pos hT, if_pos hstop]
      rfl
  | succ n ih =>
    intro s acc hb
    obtain ⟨d, its, hd, hits, hlen, htot⟩ := hc s
    have hdeq : (adv && decide (d = (⟨none, none, none, none⟩ : PageResp))) = false := by
      have : decide (d = (⟨none, none, none, none⟩ : PageResp)) = false := by
        rw [decide_eq_false_iff_not]
        intro he
        rw [he] at hits
        cases hits
      rw [this, Bool.and_false]
    rw [searchLoopFuel_page adv srv (n + 1) s acc d its hd hdeq hits, htot]
    rcases Nat.eq_zero_or_pos T with hT | hT
    · have hlen0 : its.length = 0 := by
        rw [hlen, hT, Nat.zero_sub, Nat.min_zero]
      rw [hT]
      simp [hlen0]
    · rw [if_pos hT]
      by_cases hstop : T ≤ s + its.length
      · rw [if_pos hstop]
        rfl
      · rw [if_neg hstop, isSome_map_self]
        exact ih (s + 100) (acc ++ its) (by omega)

lemma searchLoop_short_isSome (adv : Bool) (srv : Nat → Option PageResp)
    (hn : NoTotal srv) :
    ∀ k s acc, ShortAt srv (s + 100 * k) →
      (searchLoopFuel adv srv (k + 1) s acc).isSome = true := by
  intro k
  induction k with
  | zero =>
    intro s acc hs
    rw [Nat.mul_zero, Nat.add_zero] at hs
    rcases hd : srv s with _ | d
    · rw [searchLoopFuel_none adv srv 0 s acc hd]
      cases adv <;> simp
    · rcases hne : (adv && decide (d = (⟨none, none, none, none⟩ : PageResp))) with _ | _
      · rcases hits : d.items with _ | its
        · rw [searchLoopFuel_noItems adv srv 0 s acc d hd hne hits]
          rfl
        · have htot : effTotal d = 0 := hn s d hd
          have hshort : its.length < 100 := hs d its hd hits
          rw [searchLoopFuel_page adv srv 0 s acc d its hd hne hits, htot]
          simp [hshort]
      · rw [searchLoopFuel]
        rw [hd]
        simp [hne]
  | succ n ih =>
    intro s acc hs
    rcases hd : srv s with _ | d
    · rw [searchLoopFuel_none adv srv (n + 1) s acc hd]
      cases adv <;> simp
    · rcases hne : (adv && decide (d = (⟨none, none, none, none⟩ : PageResp))) with _ | _
      · rcases hits : d.items with _ | its
        · rw [searchLoopFuel_noItems adv srv (n + 1) s acc d hd hne hits]
          rfl
        · have htot : effTotal d = 0 := hn s d hd
          rw [searchLoopFuel_page adv srv (n + 1) s acc d its hd hne hits, htot]
          simp only [Nat.lt_irrefl, if_false]
          by_cases hshort : its.length < 100
          · rw [if_pos hshort]
            rfl
          · rw [if_neg hshort, isSome_map_self]
            apply ih (s + 100) (acc ++ its)
            have heq : s + 100 * (n + 1) = s + 100 + 100 * n := by ring
            rw [heq] at hs
            exact hs
      · rw [searchLoopFuel]
        rw [hd]
        simp [hne]

/-- C3: company-search pagination terminates within
`ceil(total / 100) + 1` gateway calls against any synthetic server that
consistently reports its total (under any of the three total-count
field names, the loop reading them as `effTotal`), and -- when the
server never reports a total -- within `k + 1` calls once page `k` is
short; running out of fuel models a still-running loop, so `isSome`
asserts termination within that many calls. -/
theorem claim_C3 :
    (∀ (adv : Bool) (srv : Nat → Option PageResp) (T : Nat), ConsistentTotal srv T →
      (searchLoopFuel adv srv ((T + 99) / 100 + 1) 0 []).isSome = true) ∧
    (∀ (adv : Bool) (srv : Nat → Option PageResp) (k : Nat), NoTotal srv →
      ShortAt srv (100 * k) →
      (searchLoopFuel adv srv (k + 1) 0 []).isSome = true) := by
  constructor
  · intro adv srv T hc
    apply searchLoop_total_isSome adv srv T hc
    have h1 := Nat.div_add_mod (T + 99) 100
    have h2 : (T + 99) % 100 < 100 := Nat.mod_lt _ (by norm_num)
    omega
  · intro adv srv k hn hs
    apply searchLoop_short_isSome adv srv hn k 0 []
    rw [Nat.zero_add]
    exact hs

/-- Witness for C3: the consistent 250-result server finishes within
`ceil(250/100) + 1 = 4` calls; the no-total server whose second page is
short finishes within 2 calls. -/
theorem claim_C3_witness :
    (searchLoopFuel false srvTotal250 ((250 + 99) / 100 + 1) 0 []).isSome = true ∧
    (searchLoopFuel false srvShortAt1 (1 + 1) 0 []).isSome = true := by
  constructor
  · apply claim_C3.1 false srvTotal250 250
    intro s
    refine ⟨_, List.replicate (min 100 (250 - s)) defaultCompany, rfl, rfl, ?_, rfl⟩
    rw [List.length_replicate]
  · apply claim_C3.2 false srvShortAt1 1
    · intro s d hd
      simp only [srvShortAt1] at hd
      split at hd <;> (cases hd; rfl)
    · intro d its hd hits
      simp only [srvShortAt1] at hd
      norm_num at hd
      rw [← hd] at hits
      cases hits
      simp

/-- C5: a company with an empty officer list yields exactly one row
with the seven officer columns blank; a company with N > 0 officers
yields exactly N rows; the eleven company columns are identical (equal
to `companyCols`) across all rows of a company; and the export has at
least one row per company -- no company is dropped. -/
theorem claim_C5 :
    (∀ (c : Company) (offs : List Officer),
      (offs = [] → processCompany c offs =
        [companyCols c ++ ["", "", "", "", "", "", ""]]) ∧
      ((processCompany c offs).length = max 1 offs.length) ∧
      (∀ r ∈ processCompany c offs, r.take 11 = companyCols c)) ∧
    (∀ (cs : List Company) (ofetch : String → List Officer),
      cs.length ≤ (buildRows cs ofetch).length) := by
  have htake : ∀ (c : Company) (tail : List String),
      (companyCols c ++ tail).take 11 = companyCols c := by
    intro c tail
    have hlen11 : (companyCols c).length = 11 := rfl
    rw [← hlen11, List.take_left]
  constructor
  · intro c offs
    refine ⟨?_, ?_, ?_⟩
    · intro h
      rw [h, processCompany]
      rfl
    · cases offs with
      | nil => rfl
      | cons o os =>
        rw [processCompany]
        simp only [List.isEmpty_cons, Bool.false_eq_true, if_false, List.length_map,
          List.length_cons]
        omega
    · intro r hr
      rw [processCompany] at hr
      cases offs with
      | nil =>
        simp only [List.isEmpty_nil, if_true, List.mem_singleton] at hr
        rw [hr]
        exact htake c _
      | cons o os =>
        simp only [List.isEmpty_cons, Bool.false_eq_true, if_false, List.mem_map] at hr
        obtain ⟨o2, _, hro⟩ := hr
        rw [← hro]
        exact htake c _
  · intro cs ofetch
    induction cs with
    | nil => simp [buildRows]
    | cons c cs ih =>
      rw [buildRows, List.flatMap_cons]
      have h1 : 1 ≤ (processCompany c (ofetch (c.company_number.getD ""))).length := by
        rw [processCompany]
        split
        · rfl
        · rename_i hne
          rw [List.length_map]
          have hnil : ofetch (c.company_number.getD "") ≠ [] := by
            intro hh
            rw [hh] at hne
            exact hne rfl
          have hpos := List.length_pos.mpr hnil
          omega
      rw [List.length_append, List.length_cons]
      rw [buildRows] at ih
      omega

/-- Witness for C5 at a concrete company with no officers. -/
theorem claim_C5_witness :
    processCompany acmeCompany [] =
      [companyCols acmeCompany ++ ["", "", "", "", "", "", ""]] :=
  ((claim_C5.1 acmeCompany []).1 rfl)

lemma adv_nonemptyFilters (f : Filters) (h : use_advanced_search f = true) :
    isEmptyFilters f = false := by
  rcases hf : isEmptyFilters f with _ | _
  · rfl
  · exfalso
    simp only [isEmptyFilters, Bool.and_eq_true, Option.isNone_iff_eq_none] at hf
    obtain ⟨⟨⟨⟨⟨⟨h1, h2⟩, h3⟩, h4⟩, h5⟩, h6⟩, h7⟩ := hf
    rw [use_advanced_search] at h
    simp [truthy, h2, h3, h4, h5, h6, h7] at h

/-- C1 counterexample: with a location-only filter set the advanced
POST path is taken; when the gateway yields null (e.g. the 405 case)
the route answers the plain 404 "No companies found matching your
criteria." -- byte-for-byte the same response a name-only search with
zero genuine matches produces -- because line 299 omits `location`
from the keys that trigger the "advanced search unsupported" note. -/
theorem claim_C1_cex :
    searchRoute rawLocOnly (fun _ => none) (fun _ => []) 1 =
      some (SearchResult.notFound plainNoCompaniesMsg, 1) ∧
    searchRoute rawLocOnly (fun _ => none) (fun _ => []) 1 =
      searchRoute rawAcme (fun _ => some emptyPage) (fun _ => []) 1 := by
  constructor <;> rfl

/-- C1 amended: when the advanced POST path is taken and the gateway
call yields null, `search_companies` stops immediately (one call, empty
result discarded -- no retry of the endpoint) and the caller receives a
404 whose message carries the "advanced search unsupported" note if and
only if one of status, type, SIC codes or an incorporation-date bound
is present; with location as the only advanced criterion the message is
the plain "no companies found" text, indistinguishable from zero
matches. -/
theorem claim_C1_amended (raw : RawForm) (srv : Nat → Option PageResp)
    (ofetch : String → List Officer) (fuel : Nat)
    (hadv : use_advanced_search (normalizeForm raw) = true)
    (hnull : srv 0 = none) :
    searchRoute raw srv ofetch (fuel + 1) =
      some (SearchResult.notFound (noCompaniesMsg (normalizeForm raw)), 1) ∧
    (noCompaniesMsg (normalizeForm raw) ≠ plainNoCompaniesMsg ↔
      hasNonLocationAdvanced (normalizeForm raw) = true) := by
  have hne := adv_nonemptyFilters _ hadv
  constructor
  · have hmode : searchMode (normalizeForm raw) = Mode.advanced := by
      rw [searchMode, if_pos hadv]
    have hsc : search_companies (normalizeForm raw) srv (fuel + 1) = some ([], 1) := by
      simp only [search_companies, hmode]
      rw [searchLoopFuel_none true srv fuel 0 [] hnull]
      rfl
    simp [searchRoute, hne, hsc]
  · rw [noCompaniesMsg]
    rcases hloc : hasNonLocationAdvanced (normalizeForm raw) with _ | _
    · simp [hloc]
    · simp only [hloc, if_true]
      constructor
      · intro _
        trivial
      · intro _ heq
        have hl := congrArg String.length heq
        rw [String.length_append] at hl
        have hnote : advUnsupportedNote.length ≠ 0 := by
          set_option maxRecDepth 10000 in decide
        omega

/-- Witness for C1 (amended): a status-only filter set with a dead
gateway yields the 404 carrying the note after one call. -/
theorem claim_C1_witness :
    searchRoute rawStatus (fun _ => none) (fun _ => []) (0 + 1) =
      some (SearchResult.notFound (noCompaniesMsg (normalizeForm rawStatus)), 1) :=
  (claim_C1_amended rawStatus (fun _ => none) (fun _ => []) 0 (by decide) rfl).1
